import Mathlib

/-!
Verification of the SentinelARC research-agent pipeline.

Shallow embedding of the four source files:
  src/src/agents/async_search_agent.py
  src/src/agents/async_synthesis_agent.py
  src/async_main.py
  src/streamlit_app.py

External effects (HTTP requests, Ollama calls, the clock, the report
directory on disk) are supplied as oracle parameters; each Python method
becomes a pure Lean function from its inputs and oracles to the effects it
produces (messages sent, sleeps performed, log entries) together with a
result that is either a normal return or a raised exception.

Modelling notes:
- Python dict string fields are modelled as Option String: none is an
  absent key, so dict.get with a default becomes Option.getD.  A key that
  is present but bound to None is outside the model; no claim depends on
  that distinction.
- Python str values are Lean String; slicing s[:n] is by code points and
  becomes List.take n on the underlying character list, matching Python
  semantics.  Whitespace splitting, stripping and thousands-separator
  formatting are defined below over character lists so that they compute
  inside the kernel.
-/

/-- Result of running a piece of Python code: a normal value or a raised
exception carrying a message string. -/
inductive PyResult (α : Type u) where
  | ok (a : α)
  | raised (e : String)
  deriving Repr, DecidableEq

/-- True when the computation returned normally. -/
def PyResult.isOk : PyResult α → Bool
  | .ok _ => true
  | .raised _ => false

/-- Python str.split() with no argument: split on runs of whitespace,
dropping empty pieces.  Worker with an accumulator of the current word,
held in reverse. -/
def wordsAux : List Char → List Char → List (List Char)
  | [], [] => []
  | [], acc => [acc.reverse]
  | c :: rest, acc =>
    if c.isWhitespace then
      match acc with
      | [] => wordsAux rest []
      | _ => acc.reverse :: wordsAux rest []
    else wordsAux rest (c :: acc)

/-- Python str.split() with no argument. -/
def pyWords (s : String) : List String :=
  (wordsAux s.data []).map String.mk

/-- Python str.strip(): remove leading and trailing whitespace. -/
def pyStrip (s : String) : String :=
  String.mk (((s.data.dropWhile Char.isWhitespace).reverse.dropWhile Char.isWhitespace).reverse)

/-- Insert a comma after every third character; input is the digit string
reversed, so this implements the Python format spec `:,` once the result
is reversed back. -/
def commaRev : List Char → List Char
  | a :: b :: c :: d :: rest => a :: b :: c :: ',' :: commaRev (d :: rest)
  | l => l

/-- Python f-string formatting of a nonnegative integer with a `:,`
thousands separator. -/
def pyThousands (n : Nat) : String :=
  String.mk (commaRev (toString n).data.reverse).reverse

/-- Boolean prefix test on character lists, used to embed glob matching
and section-heading tests. -/
def listPrefixOf : List Char → List Char → Bool
  | [], _ => true
  | _ :: _, [] => false
  | a :: as, b :: bs => decide (a = b) && listPrefixOf as bs

/-- Boolean suffix test on character lists. -/
def listSuffixOf (p l : List Char) : Bool :=
  listPrefixOf p.reverse l.reverse

/-- The string s begins with the string p. -/
def strStartsWith (s p : String) : Bool :=
  listPrefixOf p.data s.data

/-- The string sub occurs contiguously inside s. -/
def containsStr (s sub : String) : Prop :=
  ∃ pre post, s.data = pre ++ sub.data ++ post

/-- Python str.join on a list of strings. -/
def pyJoin (sep : String) : List String → String
  | [] => ""
  | [s] => s
  | s :: rest => s ++ sep ++ pyJoin sep rest

/-- The four ACP message types (src/src/protocols/acp_schema.py, used by
every agent). -/
inductive ACPMsgType where
  | TASK_ASSIGN
  | STATUS_UPDATE
  | DATA_SUBMIT
  | LOG_BROADCAST
  deriving Repr, DecidableEq

/-- One extracted-content dict as consumed by the synthesis agent: only
the keys the code reads are modelled. -/
structure ExtractedContent where
  extraction_successful : Bool := false
  url : Option String := none
  title : Option String := none
  content : Option String := none
  deriving Repr, DecidableEq

/-- A search-result entry: the synthesis agent only ever takes the length
of the search_results list, so its entries carry no data. -/
abbrev SearchResultItem := Unit

/-- The research-data dict passed around as TaskAssign task_data and as
DataSubmit data: the union of the keys read by the two agents. -/
structure ResearchData where
  query : Option String := none
  task_id : Option String := none
  content : Option String := none
  search_results : List SearchResultItem := []
  extracted_content : List ExtractedContent := []
  deriving Repr, DecidableEq

/-- TaskAssignPayload from the ACP schema. -/
structure TaskAssignPayload where
  task_type : String
  task_data : ResearchData
  deriving Repr, DecidableEq

/-- DataSubmitPayload from the ACP schema, as received by the synthesis
agent. -/
structure DataSubmitPayload where
  data_type : String
  data : ResearchData
  source : String
  task_id : String
  deriving Repr, DecidableEq

/-- The payload slot of an incoming message: a well-formed payload of one
of the shapes the agents parse, or a malformed dict that fails pydantic
validation. -/
inductive RawPayload where
  | taskAssign (p : TaskAssignPayload)
  | dataSubmit (p : DataSubmitPayload)
  | malformed (desc : String)
  deriving Repr, DecidableEq

/-- An incoming ACP message as seen by handle_message: only the fields the
handlers read. -/
structure ACPMessage where
  msg_type : ACPMsgType
  payload : RawPayload
  deriving Repr, DecidableEq

/-- TaskAssignPayload(**message.payload): succeeds on a well-formed
TaskAssign dict, raises a validation error otherwise. -/
def parseTaskAssignPayload : RawPayload → PyResult TaskAssignPayload
  | .taskAssign p => .ok p
  | _ => .raised "TaskAssignPayload validation error"

/-- DataSubmitPayload(**message.payload): succeeds on a well-formed
DataSubmit dict, raises a validation error otherwise. -/
def parseDataSubmitPayload : RawPayload → PyResult DataSubmitPayload
  | .dataSubmit p => .ok p
  | _ => .raised "DataSubmitPayload validation error"

/-! ## Search agent (src/src/agents/async_search_agent.py) -/

/-- One paper dict from the Semantic Scholar response, restricted to the
keys the agent reads.  authors holds each author dict's name key;
openAccessPdf holds the url when the value is a dict containing one. -/
structure Paper where
  title : Option String := none
  authors : Option (List (Option String)) := none
  year : Option Int := none
  abstract : Option String := none
  citationCount : Option Int := none
  openAccessPdf : Option String := none
  url : Option String := none
  deriving Repr, DecidableEq

/-- The params dict built for the Semantic Scholar GET request. -/
structure SearchParams where
  query : Option String
  limit : Nat
  fields : String
  sort : String
  deriving Repr, DecidableEq

/-- The params dict as built in _perform_semantic_scholar_search. -/
def semanticScholarParams (query : Option String) : SearchParams :=
  { query := query
    limit := 10
    fields := "title,authors,year,abstract,venue,citationCount,openAccessPdf,url"
    sort := "citationCount:desc" }

/-- An HTTP response from the Semantic Scholar API.  jsonData is the value
of response.json().get("data", []): a list of papers, or a raised
exception when the body is not valid JSON. -/
structure HttpResponse where
  status_code : Nat
  jsonData : PyResult (List Paper)
  text : String
  deriving Repr, DecidableEq

/-- Outcome of one requests.get call: a response, or a raised exception
(timeout, connection error). -/
inductive HttpOutcome where
  | resp (r : HttpResponse)
  | raised (e : String)
  deriving Repr, DecidableEq

/-- Oracle for the search agent's external world: the outcome of the nth
GET to the Semantic Scholar API with the given params. -/
structure SearchEnv where
  http : Nat → SearchParams → HttpOutcome

/-- The DataSubmit message the search agent sends to the orchestrator. -/
structure SearchDataSubmit where
  receiver_id : String
  data_type : String
  data : ResearchData
  source : String
  task_id : String
  deriving Repr, DecidableEq

/-- Effects produced by one run of the search handler: the params of each
GET issued, the seconds slept, and the messages sent. -/
structure SearchEffects where
  requests : List SearchParams := []
  sleeps : List Nat := []
  sent : List SearchDataSubmit := []
  deriving Repr, DecidableEq

/-- Python truthiness formatting of the authors list: comma-joined names
with Unknown defaults, or the single word Unknown for a missing or empty
list. -/
def paperAuthors (p : Paper) : String :=
  let authors_list := p.authors.getD []
  match authors_list with
  | [] => "Unknown"
  | _ => String.intercalate ", " (authors_list.map (fun a => a.getD "Unknown"))

/-- abstract_raw[:300] + ellipsis when the abstract is a nonempty string,
else the no-abstract placeholder. -/
def paperAbstract (p : Paper) : String :=
  match p.abstract with
  | some s => if s = "" then "No abstract available" else String.mk (s.data.take 300) ++ "..."
  | none => "No abstract available"

/-- Display of the year field with its N/A default. -/
def paperYear (p : Paper) : String :=
  match p.year with
  | some y => toString y
  | none => "N/A"

/-- One formatted entry of the search content, exactly the f-string
appended to content_parts in _perform_semantic_scholar_search. -/
def paperEntry (p : Paper) : String :=
  let title := p.title.getD "No title"
  let authors := paperAuthors p
  let year := paperYear p
  let citations := toString (p.citationCount.getD 0)
  let abstract := paperAbstract p
  let pdf_url := p.openAccessPdf.getD "No open PDF"
  let paper_url := p.url.getD "No link"
  "**Title**: " ++ title ++ "\n" ++
  "**Authors**: " ++ authors ++ "\n" ++
  "**Year**: " ++ year ++ " | **Citations**: " ++ citations ++ "\n" ++
  "**Abstract**: " ++ abstract ++ "\n" ++
  "**PDF**: " ++ pdf_url ++ "\n" ++
  "**Link**: " ++ paper_url ++ "\n" ++
  "---\n"

/-- The content string submitted by the search agent: the explicit
no-results placeholder for an empty paper list, otherwise the joined
formatted entries. -/
def searchContent (papers : List Paper) : String :=
  match papers with
  | [] => "No relevant academic papers found."
  | _ => pyJoin "\n" (papers.map paperEntry)

/-- The error message raised on a non-200 response. -/
def semanticScholarApiError (r : HttpResponse) : String :=
  "Semantic Scholar API error: " ++ toString r.status_code ++ " - " ++ r.text

/-- The DataSubmit message built from the final paper list. -/
def searchDataSubmitMsg (query : Option String) (task_id : String)
    (papers : List Paper) : SearchDataSubmit :=
  { receiver_id := "orchestrator"
    data_type := "search_results"
    data := { query := query, content := some (searchContent papers) }
    source := "semantic_scholar"
    task_id := task_id }

/-- The tail of _perform_semantic_scholar_search after the retry logic has
settled on a response: raise on a non-200 status, otherwise parse the
body, build the content and send the DataSubmit. -/
def finishSearch (query : Option String) (task_id : String)
    (eff : SearchEffects) (r : HttpResponse) : SearchEffects × PyResult Unit :=
  if r.status_code ≠ 200 then
    (eff, .raised (semanticScholarApiError r))
  else
    match r.jsonData with
    | .raised e => (eff, .raised e)
    | .ok papers =>
      ({ eff with sent := [searchDataSubmitMsg query task_id papers] }, .ok ())

/-- _perform_semantic_scholar_search: one GET; on a 429 status, one fixed
60-second sleep and one re-issued GET; then the finish step.  The raise at
the end of the Python except block re-raises to handle_message, so a
raised result propagates to the caller here as well. -/
def performSemanticScholarSearch (env : SearchEnv) (task_data : ResearchData) :
    SearchEffects × PyResult Unit :=
  let query := task_data.query
  let task_id := task_data.task_id.getD "unknown"
  let params := semanticScholarParams query
  match env.http 0 params with
  | .raised e => ({ requests := [params] }, .raised e)
  | .resp r1 =>
    if r1.status_code = 429 then
      match env.http 1 params with
      | .raised e => ({ requests := [params, params], sleeps := [60] }, .raised e)
      | .resp r2 =>
        finishSearch query task_id { requests := [params, params], sleeps := [60] } r2
    else
      finishSearch query task_id { requests := [params] } r1

/-- Body of AsyncSearchAgent.handle_message, before the enclosing
try/except: dispatch on msg_type, validate the payload, and run the
search for a web_search task. -/
def searchHandleBody (env : SearchEnv) (msg : ACPMessage) :
    SearchEffects × PyResult Unit :=
  if msg.msg_type = ACPMsgType.TASK_ASSIGN then
    match parseTaskAssignPayload msg.payload with
    | .raised e => ({}, .raised e)
    | .ok p =>
      if p.task_type = "web_search" then
        performSemanticScholarSearch env p.task_data
      else ({}, .ok ())
  else ({}, .ok ())

/-- What the dispatch loop observes from one handler invocation: the
effects produced plus the error log entry written by the except clause,
when the body raised. -/
structure HandledResult (E : Type) where
  effects : E
  errorLogged : Option String
  deriving Repr, DecidableEq

/-- AsyncSearchAgent.handle_message: the whole body runs under
try/except Exception, so every exception is converted into a local error
log entry and the method returns normally. -/
def searchHandleMessage (env : SearchEnv) (msg : ACPMessage) :
    PyResult (HandledResult SearchEffects) :=
  .ok <|
    match searchHandleBody env msg with
    | (eff, .ok _) => { effects := eff, errorLogged := none }
    | (eff, .raised e) => { effects := eff, errorLogged := some ("Error handling message: " ++ e) }

/-! ## Synthesis agent (src/src/agents/async_synthesis_agent.py) -/

/-- Oracle for the synthesis agent's external world: the outcome of each
ollama.chat call (introduction, per-source analysis keyed by the section
index, conclusion) and the formatted current time used in the metadata
section. -/
structure OllamaEnv where
  intro : PyResult String
  analysis : Nat → PyResult String
  conclusion : PyResult String
  now : String

/-- A StatusUpdate message sent to the orchestrator.  The Python call
sites only pass whole-number progress percentages, so progress is a
Nat. -/
structure StatusMsg where
  receiver_id : String
  status : String
  progress : Option Nat
  task_id : Option String
  deriving Repr, DecidableEq

/-- The DataSubmit message carrying the synthesis report. -/
structure SynthesisSubmitMsg where
  receiver_id : String
  data_type : String
  report_content : String
  word_count : Nat
  sections : Nat
  sources_analyzed : Nat
  query : String
  source : String
  task_id : String
  deriving Repr, DecidableEq

/-- A LogBroadcast message published on the logs topic. -/
structure LogMsg where
  topic : String
  level : String
  message : String
  component : String
  deriving Repr, DecidableEq

/-- Effects produced by one run of the synthesis handler, in send
order per list. -/
structure SynthEffects where
  statuses : List StatusMsg := []
  submits : List SynthesisSubmitMsg := []
  logs : List LogMsg := []
  deriving Repr, DecidableEq

/-- _send_status_update: the StatusUpdate message it sends. -/
def statusUpdateMsg (status : String) (progress : Option Nat)
    (task_id : Option String) : StatusMsg :=
  { receiver_id := "orchestrator", status := status, progress := progress,
    task_id := task_id }

/-- _send_error_status: a StatusUpdate whose status is the synthesis_failed
text and whose progress is 0. -/
def errorStatusMsg (error_message : String) (task_id : Option String) : StatusMsg :=
  statusUpdateMsg ("synthesis_failed: " ++ error_message) (some 0) task_id

/-- The fallback introduction returned when the Ollama call raises. -/
def introFallback (query : String) : String :=
  "This report investigates: '" ++ query ++ "'. It synthesizes findings from available academic sources to provide an overview of key developments and implications."

/-- _create_introduction: the stripped Ollama output, or the deterministic
fallback on an exception. -/
def createIntroduction (env : OllamaEnv) (query : String) : String :=
  match env.intro with
  | .ok s => pyStrip s
  | .raised _ => introFallback query

/-- The fallback analysis text used when the Ollama call for a source
raises. -/
def analysisFallback : String :=
  "• Summary generation failed for this source.\n• Raw content is available in the full report."

/-- _create_source_analysis: heading, link line and the stripped Ollama
analysis or its fallback.  The truncated content only feeds the Ollama
prompt, which the oracle abstracts. -/
def createSourceAnalysis (env : OllamaEnv) (content_data : ExtractedContent)
    (index : Nat) : String :=
  let url := content_data.url.getD "Unknown source"
  let title := content_data.title.getD "Untitled"
  let analysis :=
    match env.analysis index with
    | .ok s => pyStrip s
    | .raised _ => analysisFallback
  "## Source " ++ toString index ++ ": " ++ title ++ "\n\n[Link](" ++ url ++ ")\n\n" ++ analysis

/-- The fallback conclusion built from the successful-source count and the
query. -/
def conclusionFallback (query : String) (successfulCount : Nat) : String :=
  "Based on " ++ toString successfulCount ++ " sources, this report highlights key trends in '" ++ query ++ "'. Further research is recommended."

/-- _create_conclusion: the stripped Ollama output, or the deterministic
fallback on an exception.  The content snippets only feed the Ollama
prompt. -/
def createConclusion (env : OllamaEnv) (query : String)
    (extracted_content : List ExtractedContent) : String :=
  let successful := extracted_content.filter (·.extraction_successful)
  match env.conclusion with
  | .ok s => pyStrip s
  | .raised _ => conclusionFallback query successful.length

/-- _create_methodology: the static methodology section text. -/
def createMethodology (search_results : List SearchResultItem)
    (extracted_content : List ExtractedContent) : String :=
  let nsr := toString search_results.length
  let nsucc := toString (extracted_content.filter (·.extraction_successful)).length
  "**Research Methodology**:\nThis report was generated through:\n1. Semantic Scholar search yielding " ++ nsr ++ " results\n2. Content extraction from " ++ nsucc ++ " sources\n3. LLM-powered synthesis using Ollama (llama3.1:8b)\n4. Structured formatting into Markdown report"

/-- _create_metadata: statistics, source list and generation date. -/
def createMetadata (env : OllamaEnv) (search_results : List SearchResultItem)
    (extracted_content : List ExtractedContent) : String :=
  let successful := extracted_content.filter (·.extraction_successful)
  let total_words := (successful.map (fun c => (pyWords (c.content.getD "")).length)).sum
  let source_list := pyJoin "\n"
    (successful.map (fun c =>
      "• [" ++ c.title.getD "Untitled" ++ "](" ++ c.url.getD "#" ++ ")"))
  "**Research Statistics**:\n- Sources Analyzed: " ++ toString successful.length ++ "\n- Total Words Extracted: " ++ pyThousands total_words ++ "\n- Search Results: " ++ toString search_results.length ++ "\n**Sources**:\n" ++ source_list ++ "\n**Generation Date**: " ++ env.now ++ " IST"

/-- The source-analysis loop: for i, content in enumerate(extracted_content),
append an analysis section with index i+1 for each content whose
extraction_successful flag is truthy.  i is the running enumerate counter,
advanced on every element. -/
def sourceSections (env : OllamaEnv) : List ExtractedContent → Nat → List String
  | [], _ => []
  | c :: rest, i =>
    if c.extraction_successful then
      createSourceAnalysis env c (i + 1) :: sourceSections env rest (i + 1)
    else
      sourceSections env rest (i + 1)

/-- report_sections as accumulated by _synthesize_research_report:
introduction, per-source analyses, conclusions, methodology, metadata. -/
def reportSections (env : OllamaEnv) (query : String)
    (search_results : List SearchResultItem)
    (extracted_content : List ExtractedContent) : List String :=
  ("## Introduction\n\n" ++ createIntroduction env query)
    :: (sourceSections env extracted_content 0
        ++ [ "## Synthesis and Conclusions\n\n" ++ createConclusion env query extracted_content,
             "## Research Methodology\n\n" ++ createMethodology search_results extracted_content,
             "## Research Metadata\n\n" ++ createMetadata env search_results extracted_content ])

/-- full_report: the title heading followed by the sections joined with
blank lines. -/
def fullReport (env : OllamaEnv) (query : String)
    (search_results : List SearchResultItem)
    (extracted_content : List ExtractedContent) : String :=
  "# Research Report: " ++ query ++ "\n\n" ++
    pyJoin "\n\n" (reportSections env query search_results extracted_content)

/-- task_id = task_id or task_data.get("task_id", "unknown"): Python `or`
falls through on None and on the empty string. -/
def resolveTaskId (task_id_arg : Option String) (task_data : ResearchData) : String :=
  match task_id_arg with
  | some t => if t = "" then task_data.task_id.getD "unknown" else t
  | none => task_data.task_id.getD "unknown"

/-- _synthesize_research_report.  The guard rejects a falsy query with an
error status; otherwise the run emits its six progress statuses, builds
the report, submits it and broadcasts a completion log.  Every Ollama
failure is absorbed inside the section builders, so the try body of the
model is total. -/
def synthesizeResearchReport (env : OllamaEnv) (task_data : ResearchData)
    (task_id_arg : Option String) : SynthEffects :=
  let query := task_data.query.getD "unknown"
  let search_results := task_data.search_results
  let extracted_content := task_data.extracted_content
  let task_id := resolveTaskId task_id_arg task_data
  if query = "" then
    { statuses := [errorStatusMsg "No research query provided for synthesis" (some task_id)] }
  else
    let secs := reportSections env query search_results extracted_content
    let full_report := fullReport env query search_results extracted_content
    let word_count := (pyWords full_report).length
    let submit : SynthesisSubmitMsg :=
      { receiver_id := "orchestrator"
        data_type := "synthesis_report"
        report_content := full_report
        word_count := word_count
        sections := secs.length
        sources_analyzed := (extracted_content.filter (·.extraction_successful)).length
        query := query
        source := "ollama_synthesis"
        task_id := task_id }
    let log : LogMsg :=
      { topic := "logs"
        level := "INFO"
        message := "Research report synthesized: " ++ toString word_count ++ " words, " ++ toString extracted_content.length ++ " sources"
        component := "synthesis_agent" }
    { statuses :=
        [ statusUpdateMsg "synthesis_starting" (some 10) (some task_id)
        , statusUpdateMsg "creating_introduction" (some 20) (some task_id)
        , statusUpdateMsg "analyzing_sources" (some 40) (some task_id)
        , statusUpdateMsg "creating_synthesis" (some 70) (some task_id)
        , statusUpdateMsg "adding_metadata" (some 90) (some task_id)
        , statusUpdateMsg "synthesis_complete" (some 100) (some task_id) ]
      submits := [submit]
      logs := [log] }

/-- _handle_task_assignment: validate the payload and run the legacy
synthesize_research task under its own try/except, which converts an
exception into an error StatusUpdate. -/
def handleTaskAssignment (env : OllamaEnv) (msg : ACPMessage) :
    SynthEffects × PyResult Unit :=
  let body : SynthEffects × PyResult Unit :=
    match parseTaskAssignPayload msg.payload with
    | .raised e => ({}, .raised e)
    | .ok p =>
      if p.task_type = "synthesize_research" then
        (synthesizeResearchReport env p.task_data p.task_data.task_id, .ok ())
      else ({}, .ok ())
  match body with
  | (eff, .ok _) => (eff, .ok ())
  | (eff, .raised e) =>
    ({ eff with statuses := eff.statuses ++ [errorStatusMsg e none] }, .ok ())

/-- Body of AsyncSynthesisAgent.handle_message before the enclosing
try/except: dispatch on msg_type; a DataSubmit of search_results starts a
synthesis with the payload's task_id. -/
def synthHandleBody (env : OllamaEnv) (msg : ACPMessage) :
    SynthEffects × PyResult Unit :=
  match msg.msg_type with
  | .TASK_ASSIGN => handleTaskAssignment env msg
  | .DATA_SUBMIT =>
    match parseDataSubmitPayload msg.payload with
    | .raised e => ({}, .raised e)
    | .ok p =>
      if p.data_type = "search_results" then
        (synthesizeResearchReport env p.data (some p.task_id), .ok ())
      else ({}, .ok ())
  | _ => ({}, .ok ())

/-- AsyncSynthesisAgent.handle_message: the whole body runs under
try/except Exception, so every exception becomes a local error log entry
and the method returns normally. -/
def synthHandleMessage (env : OllamaEnv) (msg : ACPMessage) :
    PyResult (HandledResult SynthEffects) :=
  .ok <|
    match synthHandleBody env msg with
    | (eff, .ok _) => { effects := eff, errorLogged := none }
    | (eff, .raised e) => { effects := eff, errorLogged := some ("Error handling message: " ++ e) }

/-! ## HTTP front door (src/async_main.py) -/

/-- The process-wide state dict: agent list length, the orchestrator
handle once initialization stored it, and the initialized flag. -/
structure AppState where
  agents_count : Nat := 0
  orchestrator : Option String := none
  initialized : Bool := false
  deriving Repr, DecidableEq

/-- The JSON body accepted by POST /research; task_id defaults to
default_task. -/
structure ResearchRequest where
  query : String
  task_id : String := "default_task"
  deriving Repr, DecidableEq

/-- The acknowledgement returned by POST /research. -/
structure ResearchAck where
  status : String
  task_id : String
  query : String
  deriving Repr, DecidableEq

/-- The JSON body returned by GET /health. -/
structure HealthResponse where
  status : String
  agents_active : Nat
  orchestrator_ready : Bool
  deriving Repr, DecidableEq

/-- A FastAPI HTTPException response. -/
structure HTTPException where
  status_code : Nat
  detail : String
  deriving Repr, DecidableEq

/-- The background invocation scheduled by the endpoint: the orchestrator
method called and the positional arguments passed to it. -/
structure BackgroundCall where
  method : String
  args : List String
  deriving Repr, DecidableEq

/-- GET /health. -/
def health (st : AppState) : HealthResponse :=
  { status := if st.initialized then "healthy" else "initializing"
    agents_active := st.agents_count
    orchestrator_ready := st.orchestrator.isSome }

/-- POST /research: reject with 503 while the orchestrator handle is
unset, otherwise schedule orchestrator.start_research(request.query) in
the background and return the acknowledgement at once. -/
def startResearch (st : AppState) (request : ResearchRequest) :
    Except HTTPException (ResearchAck × BackgroundCall) :=
  if st.orchestrator.isNone then
    .error { status_code := 503, detail := "System initializing, please wait..." }
  else
    .ok ({ status := "task_received", task_id := request.task_id, query := request.query },
         { method := "start_research", args := [request.query] })

/-! ## Report viewer (src/streamlit_app.py) -/

/-- One file in the output/reports directory: its name, its modification
time, and the outcome of path.read_text on it. -/
structure ReportFile where
  name : String
  mtime : Nat
  readResult : PyResult String
  deriving Repr, DecidableEq

/-- The reports directory as seen on disk. -/
structure ReportsDir where
  dirExists : Bool
  entries : List ReportFile
  deriving Repr, DecidableEq

/-- Glob match against research_report_*.md: the name is the fixed prefix,
then any characters, then the fixed suffix. -/
def reportGlobMatch (name : String) : Bool :=
  listPrefixOf "research_report_".data name.data &&
  listSuffixOf ".md".data name.data &&
  decide (19 ≤ name.data.length)

/-- list_reports: empty when the directory is missing, otherwise the
entries matching the glob sorted by modification time, newest first.
Python sorted is a stable sort; mergeSort with the reversed comparison
matches sorted(key=mtime, reverse=True). -/
def listReports (dir : ReportsDir) : List ReportFile :=
  if dir.dirExists then
    (dir.entries.filter (fun f => reportGlobMatch f.name)).mergeSort
      (fun a b => decide (b.mtime ≤ a.mtime))
  else []

/-- read_report: the file text, or the failure string when read_text
raises. -/
def readReport (f : ReportFile) : String :=
  match f.readResult with
  | .ok s => s
  | .raised e => "Failed to read report: " ++ e

/-! ## Helper lemmas -/

theorem listPrefixOf_self_append (p r : List Char) : listPrefixOf p (p ++ r) = true := by
  induction p with
  | nil => rfl
  | cons a as ih => simp [listPrefixOf, ih]

theorem listPrefixOf_iff (p : List Char) : ∀ l : List Char,
    listPrefixOf p l = true ↔ ∃ t, l = p ++ t := by
  induction p with
  | nil => intro l; simp [listPrefixOf]
  | cons a as ih =>
    intro l
    cases l with
    | nil => simp [listPrefixOf]
    | cons b bs =>
      simp only [listPrefixOf, Bool.and_eq_true, decide_eq_true_eq, ih, List.cons_append,
        List.cons.injEq]
      constructor
      · rintro ⟨rfl, t, rfl⟩; exact ⟨t, rfl, rfl⟩
      · rintro ⟨t, rfl, rfl⟩; exact ⟨rfl, t, rfl⟩

theorem listSuffixOf_iff (p l : List Char) :
    listSuffixOf p l = true ↔ ∃ t, l = t ++ p := by
  unfold listSuffixOf
  rw [listPrefixOf_iff]
  constructor
  · rintro ⟨t, ht⟩
    refine ⟨t.reverse, ?_⟩
    have := congrArg List.reverse ht
    simpa using this
  · rintro ⟨t, rfl⟩
    exact ⟨t.reverse, by simp⟩

theorem wordsAux_ne_nil : ∀ (l acc : List Char), acc ≠ [] → wordsAux l acc ≠ [] := by
  intro l
  induction l with
  | nil =>
    intro acc h
    cases acc with
    | nil => exact absurd rfl h
    | cons x xs => simp [wordsAux]
  | cons c rest ih =>
    intro acc h
    cases acc with
    | nil => exact absurd rfl h
    | cons x xs =>
      by_cases hw : c.isWhitespace
      · simp [wordsAux, hw]
      · simpa [wordsAux, hw] using ih (c :: x :: xs) (by simp)

theorem pyWords_length_pos_of_head (s : String) (c : Char) (t : List Char)
    (h : s.data = c :: t) (hc : c.isWhitespace = false) :
    0 < (pyWords s).length := by
  unfold pyWords
  rw [h]
  have hne : wordsAux (c :: t) [] ≠ [] := by
    simpa [wordsAux, hc] using wordsAux_ne_nil t [c] (by simp)
  simp [List.length_pos, hne]

theorem pyJoin_infix (sep : String) : ∀ (l : List String) (s : String), s ∈ l →
    ∃ pre post, (pyJoin sep l).data = pre ++ s.data ++ post := by
  intro l
  induction l with
  | nil => intro s h; cases h
  | cons a rest ih =>
    intro s h
    rcases List.mem_cons.mp h with rfl | hmem
    · cases rest with
      | nil => exact ⟨[], [], by simp [pyJoin]⟩
      | cons b bs =>
        exact ⟨[], sep.data ++ (pyJoin sep (b :: bs)).data,
          by simp [pyJoin, String.data_append, List.append_assoc]⟩
    · cases rest with
      | nil => cases hmem
      | cons b bs =>
        obtain ⟨pre, post, hp⟩ := ih s hmem
        refine ⟨a.data ++ sep.data ++ pre, post, ?_⟩
        simp [pyJoin, String.data_append, hp, List.append_assoc]

theorem sourceSections_length (env : OllamaEnv) :
    ∀ (l : List ExtractedContent) (i : Nat),
      (sourceSections env l i).length = (l.filter (·.extraction_successful)).length := by
  intro l
  induction l with
  | nil => intro i; rfl
  | cons c rest ih =>
    intro i
    by_cases h : c.extraction_successful <;>
      simp [sourceSections, h, List.filter_cons, ih]

theorem strStartsWith_createSourceAnalysis (env : OllamaEnv) (c : ExtractedContent)
    (i : Nat) : strStartsWith (createSourceAnalysis env c i) "## Source " = true := by
  unfold strStartsWith createSourceAnalysis
  simp only [String.data_append, List.append_assoc]
  exact listPrefixOf_self_append _ _

theorem sourceSections_mem_startsWith (env : OllamaEnv) :
    ∀ (l : List ExtractedContent) (i : Nat) (s : String),
      s ∈ sourceSections env l i → strStartsWith s "## Source " = true := by
  intro l
  induction l with
  | nil => intro i s h; cases h
  | cons c rest ih =>
    intro i s h
    by_cases hc : c.extraction_successful
    · simp only [sourceSections, hc, if_true] at h
      rcases List.mem_cons.mp h with rfl | hmem
      · exact strStartsWith_createSourceAnalysis env c (i + 1)
      · exact ih (i + 1) s hmem
    · simp only [sourceSections, hc, if_false] at h
      exact ih (i + 1) s h

theorem intro_not_source (s : String) :
    strStartsWith ("## Introduction\n\n" ++ s) "## Source " = false := by
  cases s; rfl

theorem conclusions_not_source (s : String) :
    strStartsWith ("## Synthesis and Conclusions\n\n" ++ s) "## Source " = false := by
  cases s; rfl

theorem methodology_not_source (s : String) :
    strStartsWith ("## Research Methodology\n\n" ++ s) "## Source " = false := by
  cases s; rfl

theorem metadata_not_source (s : String) :
    strStartsWith ("## Research Metadata\n\n" ++ s) "## Source " = false := by
  cases s; rfl

theorem reportSections_sourceCount (env : OllamaEnv) (q : String)
    (sr : List SearchResultItem) (ec : List ExtractedContent) :
    (reportSections env q sr ec).countP (fun s => strStartsWith s "## Source ") =
      (ec.filter (·.extraction_successful)).length := by
  unfold reportSections
  rw [List.countP_cons_of_neg _ _ (by simp [intro_not_source])]
  rw [List.countP_append]
  have h1 : (sourceSections env ec 0).countP (fun s => strStartsWith s "## Source ") =
      (sourceSections env ec 0).length :=
    List.countP_eq_length.mpr (fun s hs => sourceSections_mem_startsWith env ec 0 s hs)
  rw [h1, sourceSections_length env ec 0]
  simp [List.countP_cons_of_neg, conclusions_not_source, methodology_not_source,
    metadata_not_source]

theorem containsStr_fullReport_of_mem (env : OllamaEnv) (q : String)
    (sr : List SearchResultItem) (ec : List ExtractedContent)
    (heading sec : String) (tail : List Char)
    (hmem : sec ∈ reportSections env q sr ec)
    (hd : sec.data = heading.data ++ tail) :
    containsStr (fullReport env q sr ec) heading := by
  obtain ⟨pre, post, hp⟩ := pyJoin_infix "\n\n" _ sec hmem
  refine ⟨"# Research Report: ".data ++ q.data ++ "\n\n".data ++ pre, tail ++ post, ?_⟩
  simp [fullReport, String.data_append, hp, hd, List.append_assoc]

theorem finishSearch_requests (query : Option String) (task_id : String)
    (eff : SearchEffects) (r : HttpResponse) :
    (finishSearch query task_id eff r).1.requests = eff.requests := by
  unfold finishSearch
  split
  · rfl
  · cases r.jsonData <;> rfl

theorem finishSearch_sleeps (query : Option String) (task_id : String)
    (eff : SearchEffects) (r : HttpResponse) :
    (finishSearch query task_id eff r).1.sleeps = eff.sleeps := by
  unfold finishSearch
  split
  · rfl
  · cases r.jsonData <;> rfl

theorem search_requests_le_two (env : SearchEnv) (td : ResearchData) :
    ((performSemanticScholarSearch env td).1.requests).length ≤ 2 := by
  unfold performSemanticScholarSearch
  cases h0 : env.http 0 (semanticScholarParams td.query) with
  | raised e => simp [h0]
  | resp r1 =>
    simp only [h0]
    by_cases h : r1.status_code = 429
    · simp only [h, if_true]
      cases h1 : env.http 1 (semanticScholarParams td.query) with
      | raised e => simp [h1]
      | resp r2 => simp [h1, finishSearch_requests]
    · simp [h, finishSearch_requests]

theorem finishSearch_ok_iff (query : Option String) (task_id : String)
    (eff : SearchEffects) (r : HttpResponse) :
    ((finishSearch query task_id eff r).2).isOk = true ↔
      (r.status_code = 200 ∧ ∃ papers, r.jsonData = .ok papers) := by
  unfold finishSearch
  split
  · rename_i h
    simp [PyResult.isOk]
    intro h200
    exact absurd h200 h
  · rename_i h
    have h200 : r.status_code = 200 := by omega
    cases hj : r.jsonData with
    | raised e => simp [PyResult.isOk, h200, hj]
    | ok papers => simp [PyResult.isOk, h200, hj]

/-! ## Claim theorems -/

/-- C1: for a web_search task, a 429 response from the Semantic Scholar
API causes exactly one fixed 60-second backoff and exactly one re-issued
request, after which the run either succeeds or stops with a raised
failure; across all runs at most two requests are ever issued, so there is
no unbounded retry loop. -/
theorem search_429_exactly_one_retry (env : SearchEnv) (td : ResearchData)
    (r1 : HttpResponse)
    (h0 : env.http 0 (semanticScholarParams td.query) = .resp r1)
    (h429 : r1.status_code = 429) :
    (performSemanticScholarSearch env td).1.sleeps = [60] ∧
    (performSemanticScholarSearch env td).1.requests =
      [semanticScholarParams td.query, semanticScholarParams td.query] ∧
    ((performSemanticScholarSearch env td).2.isOk = true ↔
      ∃ r2 papers, env.http 1 (semanticScholarParams td.query) = .resp r2 ∧
        r2.status_code = 200 ∧ r2.jsonData = .ok papers) ∧
    (∀ env2 td2, ((performSemanticScholarSearch env2 td2).1.requests).length ≤ 2) := by
  unfold performSemanticScholarSearch
  simp only [h0, h429, if_true]
  cases h1 : env.http 1 (semanticScholarParams td.query) with
  | raised e =>
    refine ⟨rfl, rfl, ?_, search_requests_le_two⟩
    simp [PyResult.isOk]
  | resp r2 =>
    refine ⟨finishSearch_sleeps _ _ _ _, finishSearch_requests _ _ _ _, ?_,
      search_requests_le_two⟩
    rw [finishSearch_ok_iff]
    constructor
    · rintro ⟨h200, papers, hj⟩
      exact ⟨r2, papers, rfl, h200, hj⟩
    · rintro ⟨r2c, papers, hr, h200, hj⟩
      cases hr
      exact ⟨h200, papers, hj⟩

/-- Concrete environment for the C1 witness: the first request is rate
limited, the retry succeeds with an empty paper list. -/
def wEnv429ThenOk : SearchEnv :=
  { http := fun n _ =>
      if n = 0 then .resp { status_code := 429, jsonData := .ok [], text := "Too Many Requests" }
      else .resp { status_code := 200, jsonData := .ok [], text := "" } }

theorem search_429_exactly_one_retry_witness :
    (performSemanticScholarSearch wEnv429ThenOk {}).1.sleeps = [60] ∧
    (performSemanticScholarSearch wEnv429ThenOk {}).1.requests =
      [semanticScholarParams (ResearchData.query {}),
       semanticScholarParams (ResearchData.query {})] ∧
    ((performSemanticScholarSearch wEnv429ThenOk {}).2.isOk = true ↔
      ∃ r2 papers, wEnv429ThenOk.http 1 (semanticScholarParams (ResearchData.query {})) = .resp r2 ∧
        r2.status_code = 200 ∧ r2.jsonData = .ok papers) ∧
    (∀ env2 td2, ((performSemanticScholarSearch env2 td2).1.requests).length ≤ 2) :=
  search_429_exactly_one_retry wEnv429ThenOk {}
    { status_code := 429, jsonData := .ok [], text := "Too Many Requests" } rfl rfl

/-- C2: handle_message of both agents returns normally on every incoming
message and environment; when the handler body raises (malformed payload
included), the exception is converted into a local error log entry rather
than propagating out of the dispatch path. -/
theorem handle_message_never_raises (senv : SearchEnv) (oenv : OllamaEnv)
    (m1 m2 : ACPMessage) :
    (searchHandleMessage senv m1).isOk = true ∧
    (synthHandleMessage oenv m2).isOk = true ∧
    (∀ e, (searchHandleBody senv m1).2 = .raised e →
      searchHandleMessage senv m1 =
        .ok { effects := (searchHandleBody senv m1).1,
              errorLogged := some ("Error handling message: " ++ e) }) ∧
    (∀ e, (synthHandleBody oenv m2).2 = .raised e →
      synthHandleMessage oenv m2 =
        .ok { effects := (synthHandleBody oenv m2).1,
              errorLogged := some ("Error handling message: " ++ e) }) := by
  refine ⟨rfl, rfl, ?_, ?_⟩
  · intro e h
    unfold searchHandleMessage
    rcases hb : searchHandleBody senv m1 with ⟨eff, res⟩
    rw [hb] at h
    cases res with
    | ok _ => cases h
    | raised e2 =>
      cases h
      rfl
  · intro e h
    unfold synthHandleMessage
    rcases hb : synthHandleBody oenv m2 with ⟨eff, res⟩
    rw [hb] at h
    cases res with
    | ok _ => cases h
    | raised e2 =>
      cases h
      rfl

/-- Concrete malformed message for the C2 witness. -/
def wMalformedMsg : ACPMessage :=
  { msg_type := .TASK_ASSIGN, payload := .malformed "not a TaskAssign dict" }

/-- Concrete search environment whose requests always fail. -/
def wEnvDown : SearchEnv := { http := fun _ _ => .raised "connection refused" }

/-- Concrete Ollama environment whose calls always fail. -/
def wOllamaDown : OllamaEnv :=
  { intro := .raised "ollama unreachable"
    analysis := fun _ => .raised "ollama unreachable"
    conclusion := .raised "ollama unreachable"
    now := "2026-10-12 00:00:00" }

theorem handle_message_never_raises_witness :
    (searchHandleMessage wEnvDown wMalformedMsg).isOk = true ∧
    (synthHandleMessage wOllamaDown wMalformedMsg).isOk = true ∧
    searchHandleMessage wEnvDown wMalformedMsg =
      .ok { effects := (searchHandleBody wEnvDown wMalformedMsg).1,
            errorLogged := some ("Error handling message: " ++ "TaskAssignPayload validation error") } :=
  ⟨(handle_message_never_raises wEnvDown wOllamaDown wMalformedMsg wMalformedMsg).1,
   (handle_message_never_raises wEnvDown wOllamaDown wMalformedMsg wMalformedMsg).2.1,
   (handle_message_never_raises wEnvDown wOllamaDown wMalformedMsg wMalformedMsg).2.2.1
     "TaskAssignPayload validation error" rfl⟩

/-- Concrete environment in which the Semantic Scholar API rate limits
both the first request and the retry. -/
def wEnvAlways429 : SearchEnv :=
  { http := fun _ _ =>
      .resp { status_code := 429, jsonData := .ok [], text := "Too Many Requests" } }

/-- A web_search TaskAssign for the C3 failing input. -/
def wWebSearchMsg : ACPMessage :=
  { msg_type := .TASK_ASSIGN
    payload := .taskAssign
      { task_type := "web_search"
        task_data := { query := some "AI in higher education", task_id := some "t1" } } }

/-- C3 (code evaluation): when the search fails after the bounded retry,
the search agent's handler ends with only a local error log entry and an
empty list of sent messages — no StatusUpdate carrying a failure status is
emitted to the orchestrator.  The SearchEffects sent field records every
message the agent sends, and the agent has no status-sending site at all,
so the empty list refutes the claim on this input. -/
theorem search_failure_swallowed_without_status :
    searchHandleMessage wEnvAlways429 wWebSearchMsg =
      .ok { effects :=
              { requests := [semanticScholarParams (some "AI in higher education"),
                             semanticScholarParams (some "AI in higher education")]
                sleeps := [60]
                sent := [] }
            errorLogged := some "Error handling message: Semantic Scholar API error: 429 - Too Many Requests" } := by
  rfl

theorem reportSections_length (env : OllamaEnv) (q : String)
    (sr : List SearchResultItem) (ec : List ExtractedContent) :
    (reportSections env q sr ec).length =
      4 + (ec.filter (·.extraction_successful)).length := by
  simp [reportSections, sourceSections_length]
  omega

theorem pyWords_fullReport_pos (env : OllamaEnv) (q : String)
    (sr : List SearchResultItem) (ec : List ExtractedContent) :
    0 < (pyWords (fullReport env q sr ec)).length := by
  apply pyWords_length_pos_of_head _ '#'
    (" Research Report: ".data ++ (q.data ++ ("\n\n".data ++
      (pyJoin "\n\n" (reportSections env q sr ec)).data)))
  · unfold fullReport
    rw [String.data_append, String.data_append, String.data_append,
      show "# Research Report: ".data = '#' :: " Research Report: ".data from rfl]
    simp [List.append_assoc]
  · rfl

theorem containsStr_title (env : OllamaEnv) (q : String)
    (sr : List SearchResultItem) (ec : List ExtractedContent) :
    containsStr (fullReport env q sr ec) "# Research Report: " := by
  refine ⟨[], q.data ++ "\n\n".data ++ (pyJoin "\n\n" (reportSections env q sr ec)).data, ?_⟩
  simp [fullReport, String.data_append, List.append_assoc]

theorem containsStr_heading_intro (env : OllamaEnv) (q : String)
    (sr : List SearchResultItem) (ec : List ExtractedContent) :
    containsStr (fullReport env q sr ec) "## Introduction" := by
  refine containsStr_fullReport_of_mem env q sr ec "## Introduction"
    ("## Introduction\n\n" ++ createIntroduction env q)
    (['\n', '\n'] ++ (createIntroduction env q).data) (by simp [reportSections]) ?_
  rw [String.data_append,
    show "## Introduction\n\n".data = "## Introduction".data ++ ['\n', '\n'] from rfl,
    List.append_assoc]

theorem containsStr_heading_conclusions (env : OllamaEnv) (q : String)
    (sr : List SearchResultItem) (ec : List ExtractedContent) :
    containsStr (fullReport env q sr ec) "## Synthesis and Conclusions" := by
  refine containsStr_fullReport_of_mem env q sr ec "## Synthesis and Conclusions"
    ("## Synthesis and Conclusions\n\n" ++ createConclusion env q ec)
    (['\n', '\n'] ++ (createConclusion env q ec).data) (by simp [reportSections]) ?_
  rw [String.data_append,
    show "## Synthesis and Conclusions\n\n".data =
      "## Synthesis and Conclusions".data ++ ['\n', '\n'] from rfl,
    List.append_assoc]

theorem containsStr_heading_methodology (env : OllamaEnv) (q : String)
    (sr : List SearchResultItem) (ec : List ExtractedContent) :
    containsStr (fullReport env q sr ec) "## Research Methodology" := by
  refine containsStr_fullReport_of_mem env q sr ec "## Research Methodology"
    ("## Research Methodology\n\n" ++ createMethodology sr ec)
    (['\n', '\n'] ++ (createMethodology sr ec).data) (by simp [reportSections]) ?_
  rw [String.data_append,
    show "## Research Methodology\n\n".data =
      "## Research Methodology".data ++ ['\n', '\n'] from rfl,
    List.append_assoc]

theorem containsStr_heading_metadata (env : OllamaEnv) (q : String)
    (sr : List SearchResultItem) (ec : List ExtractedContent) :
    containsStr (fullReport env q sr ec) "## Research Metadata" := by
  refine containsStr_fullReport_of_mem env q sr ec "## Research Metadata"
    ("## Research Metadata\n\n" ++ createMetadata env sr ec)
    (['\n', '\n'] ++ (createMetadata env sr ec).data) (by simp [reportSections]) ?_
  rw [String.data_append,
    show "## Research Metadata\n\n".data =
      "## Research Metadata".data ++ ['\n', '\n'] from rfl,
    List.append_assoc]

/-- C4: every synthesis run that passes the query guard submits exactly
one synthesis_report DataSubmit whose word_count is positive and whose
section count is 4 plus one source-analysis section per extracted source
with a true extraction_successful flag; the report text carries the title
heading and the Introduction, Synthesis and Conclusions, Research
Methodology and Research Metadata sections. -/
theorem synthesis_report_structure (env : OllamaEnv) (td : ResearchData)
    (tid : Option String) (hq : td.query.getD "unknown" ≠ "") :
    ∃ m, (synthesizeResearchReport env td tid).submits = [m] ∧
      m.data_type = "synthesis_report" ∧
      0 < m.word_count ∧
      4 ≤ m.sections ∧
      m.sections = 4 + (td.extracted_content.filter (·.extraction_successful)).length ∧
      m.report_content =
        fullReport env (td.query.getD "unknown") td.search_results td.extracted_content ∧
      containsStr m.report_content "# Research Report: " ∧
      containsStr m.report_content "## Introduction" ∧
      containsStr m.report_content "## Synthesis and Conclusions" ∧
      containsStr m.report_content "## Research Methodology" ∧
      containsStr m.report_content "## Research Metadata" ∧
      (reportSections env (td.query.getD "unknown") td.search_results
          td.extracted_content).countP (fun s => strStartsWith s "## Source ") =
        (td.extracted_content.filter (·.extraction_successful)).length := by
  unfold synthesizeResearchReport
  simp only [if_neg hq]
  refine ⟨_, rfl, rfl, ?_, ?_, ?_, rfl, containsStr_title _ _ _ _,
    containsStr_heading_intro _ _ _ _, containsStr_heading_conclusions _ _ _ _,
    containsStr_heading_methodology _ _ _ _, containsStr_heading_metadata _ _ _ _,
    reportSections_sourceCount _ _ _ _⟩
  · exact pyWords_fullReport_pos _ _ _ _
  · simp only [reportSections_length]; omega
  · simp only [reportSections_length]

/-- Concrete task data for the C4 witness: a valid query and one
successfully extracted source. -/
def wTaskData : ResearchData :=
  { query := some "AI in higher education"
    task_id := some "t1"
    extracted_content :=
      [{ extraction_successful := true
         title := some "Paper One"
         url := some "http://example.org/p1"
         content := some "deep learning in education" }] }

theorem synthesis_report_structure_witness :
    wTaskData.query.getD "unknown" ≠ "" ∧
    ∃ m, (synthesizeResearchReport wOllamaDown wTaskData (some "t1")).submits = [m] ∧
      m.data_type = "synthesis_report" ∧
      0 < m.word_count ∧
      4 ≤ m.sections ∧
      m.sections = 4 + (wTaskData.extracted_content.filter (·.extraction_successful)).length ∧
      m.report_content =
        fullReport wOllamaDown (wTaskData.query.getD "unknown") wTaskData.search_results
          wTaskData.extracted_content ∧
      containsStr m.report_content "# Research Report: " ∧
      containsStr m.report_content "## Introduction" ∧
      containsStr m.report_content "## Synthesis and Conclusions" ∧
      containsStr m.report_content "## Research Methodology" ∧
      containsStr m.report_content "## Research Metadata" ∧
      (reportSections wOllamaDown (wTaskData.query.getD "unknown") wTaskData.search_results
          wTaskData.extracted_content).countP (fun s => strStartsWith s "## Source ") =
        (wTaskData.extracted_content.filter (·.extraction_successful)).length :=
  ⟨by decide, synthesis_report_structure wOllamaDown wTaskData (some "t1") (by decide)⟩

/-- C5: a 200 response with an empty result set still produces a
DataSubmit whose content is the explicit no-results placeholder, and a
synthesis over that submitted data still produces and submits a report. -/
theorem empty_results_still_reported (senv : SearchEnv) (td : ResearchData)
    (r : HttpResponse) (oenv : OllamaEnv) (tid : String)
    (h0 : senv.http 0 (semanticScholarParams td.query) = .resp r)
    (h200 : r.status_code = 200)
    (hjson : r.jsonData = .ok [])
    (hq : td.query ≠ some "") :
    ∃ m, (performSemanticScholarSearch senv td).1.sent = [m] ∧
      (performSemanticScholarSearch senv td).2 = .ok () ∧
      m.data_type = "search_results" ∧
      m.data.content = some "No relevant academic papers found." ∧
      ∃ m2, (synthesizeResearchReport oenv m.data (some tid)).submits = [m2] ∧
        m2.data_type = "synthesis_report" ∧ 0 < m2.word_count := by
  have hmain : performSemanticScholarSearch senv td =
      ({ requests := [semanticScholarParams td.query], sleeps := [],
         sent := [searchDataSubmitMsg td.query (td.task_id.getD "unknown") []] }, .ok ()) := by
    unfold performSemanticScholarSearch finishSearch
    simp [h0, h200, hjson]
  have hq2 : ((searchDataSubmitMsg td.query (td.task_id.getD "unknown") []).data.query).getD
      "unknown" ≠ "" := by
    show td.query.getD "unknown" ≠ ""
    cases htd : td.query with
    | none => simp
    | some s =>
      simp only [Option.getD_some]
      intro h
      exact hq (by rw [htd, h])
  obtain ⟨m2, hm1, hm2, hm3, _⟩ :=
    synthesis_report_structure oenv
      (searchDataSubmitMsg td.query (td.task_id.getD "unknown") []).data (some tid) hq2
  exact ⟨searchDataSubmitMsg td.query (td.task_id.getD "unknown") [],
    by rw [hmain], by rw [hmain], rfl, rfl, m2, hm1, hm2, hm3⟩

/-- Concrete environment for the C5 witness: a single 200 response with an
empty paper list. -/
def wEnvEmptyOk : SearchEnv :=
  { http := fun _ _ => .resp { status_code := 200, jsonData := .ok [], text := "" } }

/-- Concrete task data for the C5 witness. -/
def wTaskDataC5 : ResearchData := { query := some "AI in higher education", task_id := some "t5" }

theorem empty_results_still_reported_witness :
    ∃ m, (performSemanticScholarSearch wEnvEmptyOk wTaskDataC5).1.sent = [m] ∧
      (performSemanticScholarSearch wEnvEmptyOk wTaskDataC5).2 = .ok () ∧
      m.data_type = "search_results" ∧
      m.data.content = some "No relevant academic papers found." ∧
      ∃ m2, (synthesizeResearchReport wOllamaDown m.data (some "t5")).submits = [m2] ∧
        m2.data_type = "synthesis_report" ∧ 0 < m2.word_count :=
  empty_results_still_reported wEnvEmptyOk wTaskDataC5
    { status_code := 200, jsonData := .ok [], text := "" } wOllamaDown "t5"
    rfl rfl rfl (by decide)

/-- C6: when the Ollama call for the introduction, a source analysis or
the conclusion raises, the corresponding section text is the deterministic
fallback, and the run still completes with exactly one submitted
synthesis_report. -/
theorem ollama_failure_uses_fallback (env : OllamaEnv) (td : ResearchData)
    (tid : Option String) (c : ExtractedContent) (i : Nat) (e1 e2 e3 : String)
    (hq : td.query.getD "unknown" ≠ "") :
    (env.intro = .raised e1 →
      createIntroduction env (td.query.getD "unknown") =
        introFallback (td.query.getD "unknown")) ∧
    (env.analysis i = .raised e2 →
      createSourceAnalysis env c i =
        "## Source " ++ toString i ++ ": " ++ c.title.getD "Untitled" ++
          "\n\n[Link](" ++ c.url.getD "Unknown source" ++ ")\n\n" ++ analysisFallback) ∧
    (env.conclusion = .raised e3 →
      createConclusion env (td.query.getD "unknown") td.extracted_content =
        conclusionFallback (td.query.getD "unknown")
          (td.extracted_content.filter (·.extraction_successful)).length) ∧
    (synthesizeResearchReport env td tid).submits.length = 1 := by
  refine ⟨?_, ?_, ?_, ?_⟩
  · intro h
    simp [createIntroduction, h]
  · intro h
    simp [createSourceAnalysis, h]
  · intro h
    simp [createConclusion, h]
  · unfold synthesizeResearchReport
    simp [if_neg hq]

theorem ollama_failure_uses_fallback_witness :
    (wOllamaDown.intro = .raised "ollama unreachable" →
      createIntroduction wOllamaDown (wTaskData.query.getD "unknown") =
        introFallback (wTaskData.query.getD "unknown")) ∧
    (wOllamaDown.analysis 1 = .raised "ollama unreachable" →
      createSourceAnalysis wOllamaDown
          { extraction_successful := true, title := some "Paper One",
            url := some "http://example.org/p1", content := some "deep learning in education" } 1 =
        "## Source " ++ toString 1 ++ ": " ++
          (({ extraction_successful := true, title := some "Paper One",
              url := some "http://example.org/p1",
              content := some "deep learning in education" } : ExtractedContent).title.getD
            "Untitled") ++
          "\n\n[Link](" ++
          (({ extraction_successful := true, title := some "Paper One",
              url := some "http://example.org/p1",
              content := some "deep learning in education" } : ExtractedContent).url.getD
            "Unknown source") ++ ")\n\n" ++ analysisFallback) ∧
    (wOllamaDown.conclusion = .raised "ollama unreachable" →
      createConclusion wOllamaDown (wTaskData.query.getD "unknown") wTaskData.extracted_content =
        conclusionFallback (wTaskData.query.getD "unknown")
          (wTaskData.extracted_content.filter (·.extraction_successful)).length) ∧
    (synthesizeResearchReport wOllamaDown wTaskData (some "t1")).submits.length = 1 :=
  ollama_failure_uses_fallback wOllamaDown wTaskData (some "t1")
    { extraction_successful := true, title := some "Paper One",
      url := some "http://example.org/p1", content := some "deep learning in education" }
    1 "ollama unreachable" "ollama unreachable" "ollama unreachable" (by decide)

/-- Application state after initialization completed, for the C7 and C8
witnesses. -/
def wReadySt : AppState :=
  { agents_count := 7, orchestrator := some "orchestrator", initialized := true }

/-- A research request supplying an explicit ingress task_id. -/
def wReqWithTaskId : ResearchRequest :=
  { query := "AI in higher education", task_id := "ingress-42" }

/-- C7 (counterexample): the task_id supplied at the HTTP ingress is
echoed in the acknowledgement but is NOT among the arguments of the
background orchestrator invocation — start_research is called with the
query alone, so the ingress task_id is not the correlation key passed to
the orchestrator. -/
theorem ingress_taskid_not_forwarded :
    ∃ ack call, startResearch wReadySt wReqWithTaskId = .ok (ack, call) ∧
      ack.task_id = "ingress-42" ∧
      call.method = "start_research" ∧
      call.args = ["AI in higher education"] ∧
      "ingress-42" ∉ call.args := by
  refine ⟨_, _, rfl, rfl, rfl, rfl, ?_⟩
  decide

/-- C7 (amended): the ingress task_id is only echoed in the immediate
acknowledgement; the orchestrator is started with the query as its only
argument.  Inside the pipeline, the task_id carried in the TaskAssign
task_data (with its unknown default) is the one the search agent threads
into every DataSubmit it sends. -/
theorem taskid_echoed_and_threaded (st : AppState) (req : ResearchRequest)
    (o : String) (h : st.orchestrator = some o)
    (senv : SearchEnv) (td : ResearchData) (m : SearchDataSubmit)
    (hm : m ∈ (performSemanticScholarSearch senv td).1.sent) :
    startResearch st req =
      .ok ({ status := "task_received", task_id := req.task_id, query := req.query },
           { method := "start_research", args := [req.query] }) ∧
    m.task_id = td.task_id.getD "unknown" := by
  constructor
  · unfold startResearch
    rw [if_neg (by simp [h])]
  · unfold performSemanticScholarSearch at hm
    cases h0 : senv.http 0 (semanticScholarParams td.query) with
    | raised e => simp only [h0] at hm; simp at hm
    | resp r1 =>
      simp only [h0] at hm
      by_cases h429 : r1.status_code = 429
      · rw [if_pos h429] at hm
        cases h1 : senv.http 1 (semanticScholarParams td.query) with
        | raised e => simp only [h1] at hm; simp at hm
        | resp r2 =>
          simp only [h1] at hm
          unfold finishSearch at hm
          split at hm
          · simp at hm
          · cases hj : r2.jsonData with
            | raised e => rw [hj] at hm; simp at hm
            | ok papers =>
              rw [hj] at hm
              simp at hm
              rw [hm]
              rfl
      · rw [if_neg h429] at hm
        unfold finishSearch at hm
        split at hm
        · simp at hm
        · cases hj : r1.jsonData with
          | raised e => rw [hj] at hm; simp at hm
          | ok papers =>
            rw [hj] at hm
            simp at hm
            rw [hm]
            rfl

theorem taskid_echoed_and_threaded_witness :
    startResearch wReadySt wReqWithTaskId =
      .ok ({ status := "task_received", task_id := wReqWithTaskId.task_id,
             query := wReqWithTaskId.query },
           { method := "start_research", args := [wReqWithTaskId.query] }) ∧
    (searchDataSubmitMsg (some "AI in higher education") "t1" []).task_id =
      (wTaskData.task_id).getD "unknown" :=
  taskid_echoed_and_threaded wReadySt wReqWithTaskId "orchestrator" rfl
    wEnvEmptyOk wTaskData (searchDataSubmitMsg (some "AI in higher education") "t1" [])
    (by decide)

/-- C8: /research replies with an immediate task_received acknowledgement
echoing the request when the orchestrator is up, fails with a 503 while
it is unset, and /health reports healthy exactly when initialization has
completed, initializing otherwise. -/
theorem http_endpoints_behaviour (st : AppState) (req : ResearchRequest) :
    ((health st).status = "healthy" ↔ st.initialized = true) ∧
    ((health st).status = "initializing" ↔ st.initialized = false) ∧
    (st.orchestrator = none →
      startResearch st req =
        .error { status_code := 503, detail := "System initializing, please wait..." }) ∧
    (∀ o, st.orchestrator = some o →
      startResearch st req =
        .ok ({ status := "task_received", task_id := req.task_id, query := req.query },
             { method := "start_research", args := [req.query] })) := by
  refine ⟨?_, ?_, ?_, ?_⟩
  · cases h : st.initialized <;> simp [health, h]
  · cases h : st.initialized <;> simp [health, h]
  · intro h
    unfold startResearch
    rw [if_pos (by simp [h])]
  · intro o h
    unfold startResearch
    rw [if_neg (by simp [h])]

theorem http_endpoints_behaviour_witness :
    ((health wReadySt).status = "healthy" ↔ wReadySt.initialized = true) ∧
    ((health wReadySt).status = "initializing" ↔ wReadySt.initialized = false) ∧
    (wReadySt.orchestrator = none →
      startResearch wReadySt wReqWithTaskId =
        .error { status_code := 503, detail := "System initializing, please wait..." }) ∧
    (∀ o, wReadySt.orchestrator = some o →
      startResearch wReadySt wReqWithTaskId =
        .ok ({ status := "task_received", task_id := wReqWithTaskId.task_id,
               query := wReqWithTaskId.query },
             { method := "start_research", args := [wReqWithTaskId.query] })) :=
  http_endpoints_behaviour wReadySt wReqWithTaskId

theorem reportGlobMatch_iff (name : String) :
    reportGlobMatch name = true ↔
      ∃ mid : List Char, name.data = "research_report_".data ++ mid ++ ".md".data := by
  unfold reportGlobMatch
  simp only [Bool.and_eq_true, decide_eq_true_eq, listPrefixOf_iff, listSuffixOf_iff]
  constructor
  · rintro ⟨⟨⟨t, ht⟩, u, hu⟩, hlen⟩
    have hpre16 : ("research_report_".data).length = 16 := rfl
    have hsuf3 : (".md".data).length = 3 := rfl
    have hnamelen := congrArg List.length ht
    rw [List.length_append, hpre16] at hnamelen
    have hlt : 3 ≤ t.length := by omega
    have hulen : name.data.length - 3 = u.length := by
      have := congrArg List.length hu
      rw [List.length_append, hsuf3] at this
      omega
    have h1 : name.data.drop (name.data.length - 3) = ".md".data := by
      rw [hulen, hu, List.drop_left]
    rw [ht] at h1
    have h2 : ("research_report_".data ++ t).length - 3 =
        ("research_report_".data).length + (t.length - 3) := by
      rw [List.length_append, hpre16]
      omega
    rw [h2, List.drop_append] at h1
    refine ⟨t.take (t.length - 3), ?_⟩
    rw [← List.take_append_drop (t.length - 3) t] at ht
    rw [h1] at ht
    rw [ht, List.append_assoc]
  · rintro ⟨mid, hm⟩
    have hpre16 : ("research_report_".data).length = 16 := rfl
    have hsuf3 : (".md".data).length = 3 := rfl
    refine ⟨⟨⟨mid ++ ".md".data, by rw [hm, List.append_assoc]⟩,
      ⟨"research_report_".data ++ mid, by rw [hm]⟩⟩, ?_⟩
    rw [hm]
    rw [List.length_append, List.length_append, hpre16, hsuf3]
    omega

/-- C9: the viewer returns an empty list when the reports directory is
missing; it lists exactly the directory entries whose names match the
research_report_*.md glob, sorted by modification time newest first; the
glob test is exactly prefix-plus-suffix string shape; and a failing read
yields the failure string instead of an exception. -/
theorem report_viewer_behaviour (dir : ReportsDir) (f g : ReportFile) (e : String)
    (hg : g.readResult = .raised e) :
    (dir.dirExists = false → listReports dir = []) ∧
    (f ∈ listReports dir ↔
      dir.dirExists = true ∧ f ∈ dir.entries ∧ reportGlobMatch f.name = true) ∧
    (listReports dir).Pairwise (fun a b => b.mtime ≤ a.mtime) ∧
    (∀ nm : String, reportGlobMatch nm = true ↔
      ∃ mid : List Char, nm.data = "research_report_".data ++ mid ++ ".md".data) ∧
    readReport g = "Failed to read report: " ++ e := by
  refine ⟨?_, ?_, ?_, reportGlobMatch_iff, ?_⟩
  · intro h
    simp [listReports, h]
  · unfold listReports
    by_cases h : dir.dirExists
    · simp [h, List.mem_mergeSort, List.mem_filter]
    · simp [h]
  · unfold listReports
    by_cases h : dir.dirExists
    · simp only [h, if_true]
      refine List.Pairwise.imp ?_
        (List.sorted_mergeSort ?_ ?_ (dir.entries.filter fun x => reportGlobMatch x.name))
      · intro a b hab
        simpa using hab
      · intro a b c hab hbc
        simp only [decide_eq_true_eq] at hab hbc ⊢
        omega
      · intro a b
        simpa using Nat.le_total b.mtime a.mtime
    · simp [h]
  · unfold readReport
    rw [hg]

/-- Concrete reports directory for the C9 witness. -/
def wReportsDir : ReportsDir :=
  { dirExists := true
    entries :=
      [ { name := "research_report_a.md", mtime := 3, readResult := .ok "report a" }
      , { name := "notes.txt", mtime := 9, readResult := .ok "notes" }
      , { name := "research_report_b.md", mtime := 7, readResult := .ok "report b" } ] }

/-- A file whose read fails, for the C9 witness. -/
def wBadFile : ReportFile :=
  { name := "research_report_c.md", mtime := 1, readResult := .raised "Permission denied" }

theorem report_viewer_behaviour_witness :
    (wReportsDir.dirExists = false → listReports wReportsDir = []) ∧
    ({ name := "research_report_a.md", mtime := 3, readResult := .ok "report a" } ∈
        listReports wReportsDir ↔
      wReportsDir.dirExists = true ∧
      { name := "research_report_a.md", mtime := 3, readResult := .ok "report a" } ∈
        wReportsDir.entries ∧
      reportGlobMatch
        (ReportFile.name { name := "research_report_a.md", mtime := 3, readResult := .ok "report a" }) = true) ∧
    (listReports wReportsDir).Pairwise (fun a b => b.mtime ≤ a.mtime) ∧
    (∀ nm : String, reportGlobMatch nm = true ↔
      ∃ mid : List Char, nm.data = "research_report_".data ++ mid ++ ".md".data) ∧
    readReport wBadFile = "Failed to read report: " ++ "Permission denied" :=
  report_viewer_behaviour wReportsDir
    { name := "research_report_a.md", mtime := 3, readResult := .ok "report a" }
    wBadFile "Permission denied" rfl

theorem search_requests_all_params (env : SearchEnv) (td : ResearchData)
    (p : SearchParams) (hp : p ∈ (performSemanticScholarSearch env td).1.requests) :
    p = semanticScholarParams td.query := by
  unfold performSemanticScholarSearch at hp
  cases h0 : env.http 0 (semanticScholarParams td.query) with
  | raised e =>
    simp only [h0] at hp
    simpa using hp
  | resp r1 =>
    simp only [h0] at hp
    by_cases h429 : r1.status_code = 429
    · rw [if_pos h429] at hp
      cases h1 : env.http 1 (semanticScholarParams td.query) with
      | raised e =>
        simp only [h1] at hp
        simp at hp
        exact hp
      | resp r2 =>
        simp only [h1, finishSearch_requests] at hp
        simp at hp
        exact hp
    · rw [if_neg h429] at hp
      simp only [finishSearch_requests] at hp
      simpa using hp

/-- C10: every request the search agent issues to the Semantic Scholar
API carries limit 10, and each paper's abstract contributes at most 300
characters plus the ellipsis to the submitted content (the exact truncated
shape is given for a nonempty string abstract). -/
theorem search_bounded_request_and_abstract (env : SearchEnv) (td : ResearchData)
    (p : SearchParams) (hp : p ∈ (performSemanticScholarSearch env td).1.requests)
    (paper : Paper) (s : String) :
    p.limit = 10 ∧
    (paperAbstract paper).length ≤ 303 ∧
    (paper.abstract = some s → s ≠ "" →
      paperAbstract paper = String.mk (s.data.take 300) ++ "...") := by
  refine ⟨?_, ?_, ?_⟩
  · rw [search_requests_all_params env td p hp]
    rfl
  · have hlen : ∀ t : String, t.length = t.data.length := fun _ => rfl
    rcases ha : paper.abstract with _ | s2
    · simp only [paperAbstract, ha]
      decide
    · by_cases he : s2 = ""
      · simp only [paperAbstract, ha, he, if_pos]
        decide
      · simp only [paperAbstract, ha, if_neg he]
        rw [hlen, String.data_append]
        rw [List.length_append]
        have h1 : (String.mk (s2.data.take 300)).data = s2.data.take 300 := rfl
        rw [h1]
        have h2 : (s2.data.take 300).length ≤ 300 := by
          rw [List.length_take]
          omega
        have h3 : ("..." : String).data.length = 3 := rfl
        omega
  · intro h1 h2
    simp [paperAbstract, h1, h2]

/-- Concrete paper for the C10 witness. -/
def wPaper : Paper := { title := some "Paper One", abstract := some "short abstract" }

theorem search_bounded_request_and_abstract_witness :
    (semanticScholarParams (some "AI in higher education")).limit = 10 ∧
    (paperAbstract wPaper).length ≤ 303 ∧
    (wPaper.abstract = some "short abstract" → "short abstract" ≠ "" →
      paperAbstract wPaper = String.mk ("short abstract".data.take 300) ++ "...") :=
  search_bounded_request_and_abstract wEnvEmptyOk wTaskDataC5
    (semanticScholarParams (some "AI in higher education")) (by decide)
    wPaper "short abstract"
